import Mathlib

/-!
Verification of the `pkg/client` package of zitadel-go: the option-pattern
client configuration (`WithAuth`, `WithGRPCDialOptions`), the connection
builder (`New`, `newConnection`) and the per-call credential provider
(`cred`).  External collaborators (the transport-credentials constructor,
the grpc dial routine, the generated per-service stub constructors and the
`zitadel.Zitadel` endpoint type) live outside the translated file;
they are modelled as an explicit environment and, where the spec fixes
their behaviour, from the spec's words.  Construction is instrumented with
an event trace so that statements such as "the dial routine is never
invoked" become statements about the trace.
-/

namespace ZitadelClient

/-- Errors are modelled as strings; the claims only need that an error value
is propagated unchanged, so any type with decidable equality works. -/
abbrev Err := String

/-- The build context (Go `context.Context`) is opaque to this code; only
its identity matters (it is passed through to the collaborators). -/
abbrev Ctx := Nat

/-- A grpc client connection is opaque to this code; only its identity
matters (every stub is bound to it). -/
abbrev Conn := Nat

/-- Transport-layer security credentials, opaque to this code; produced by
the external `transportCredentials` constructor. -/
structure TransportCreds where
  id : Nat
  deriving DecidableEq

deriving instance DecidableEq for Except

/-- A token source (Go `oauth2.TokenSource`).  Invoking it yields the
current valid token or an error; refresh and caching are its own business,
so one invocation is one read of `token`. -/
structure TokenSource where
  token : Except Err String
  deriving DecidableEq

/-- Go `TokenSourceInitializer`: given a context and the endpoint's origin,
produce a token source or fail. -/
def TokenSourceInitializer := Ctx → String → Except Err TokenSource

/-- Modelled from the spec: the `zitadel.Zitadel` endpoint type is not part
of the translated file; per the spec it identifies the remote instance by
host, domain, TLS flag and externally visible origin, each exposed by a
read-only accessor. -/
structure Zitadel where
  domain : String
  host : String
  origin : String
  tls : Bool
  deriving DecidableEq

def Zitadel.Domain (z : Zitadel) : String := z.domain

def Zitadel.Host (z : Zitadel) : String := z.host

def Zitadel.Origin (z : Zitadel) : String := z.origin

def Zitadel.IsTLS (z : Zitadel) : Bool := z.tls

/-- The per-call credential provider (`cred` in the source): it records the
endpoint's TLS flag and the optional token source. -/
structure cred where
  tls : Bool
  tokenSource : Option TokenSource
  deriving DecidableEq

/-- Modelled from the spec: the method bodies of `cred` are not in the
translated file.  `GetRequestMetadata` returns an empty mapping when no
token source is configured; otherwise it invokes the token source and
returns a single entry mapping the authorization header name to a
bearer-scheme token value, propagating the token source's error. -/
def cred.GetRequestMetadata (c : cred) : Except Err (List (String × String)) :=
  match c.tokenSource with
  | none => .ok []
  | some ts =>
    match ts.token with
    | .error e => .error e
    | .ok t => .ok [("authorization", "Bearer " ++ t)]

/-- Modelled from the spec: the method bodies of `cred` are not in the
translated file.  `RequiresTransportSecurity` returns true iff the
connection was configured as TLS. -/
def cred.RequiresTransportSecurity (c : cred) : Bool := c.tls

/-- A grpc dial option: the two the builder itself constructs, or an
opaque caller-supplied one (identified by a tag). -/
inductive DialOption where
  | withTransportCredentials (tc : TransportCreds)
  | withPerRPCCredentials (c : cred)
  | extra (tag : Nat)
  deriving DecidableEq

/-- The client options accumulator (`clientOptions` in the source).  The Go
zero value has a nil initializer and a nil option slice. -/
structure clientOptions where
  initTokenSource : Option TokenSourceInitializer := none
  grpcDialOptions : List DialOption := []

/-- The option-applying function type (`Option` in the source; renamed here
because `Option` is taken by Lean's core library). -/
def ClientOption := clientOptions → clientOptions

/-- `WithAuth` sets the token-source initializer (overwriting any earlier
one). -/
def WithAuth (initTokenSource : TokenSourceInitializer) : ClientOption :=
  fun c => { c with initTokenSource := some initTokenSource }

/-- `WithGRPCDialOptions` appends the given dial options to the accumulated
ones. -/
def WithGRPCDialOptions (opts : List DialOption) : ClientOption :=
  fun c => { c with grpcDialOptions := c.grpcDialOptions ++ opts }

/-- The loop at the top of `New`: apply every option in order to the
zero-valued accumulator. -/
def applyOptions (opts : List ClientOption) : clientOptions :=
  opts.foldl (fun c o => o c) {}

/-- A per-service stub.  The generated constructors are external; per the
spec each takes the shared connection and returns a typed stub, so a stub
is either the zero value (nil interface) or bound to a connection. -/
inductive Stub where
  | null
  | bound (conn : Conn)
  deriving DecidableEq

/-- Modelled from the spec: each generated stub constructor takes the
shared connection and returns a stub bound to it.  The fourteen services
share this shape; the bound connection is the observable identity. -/
def newServiceClient (conn : Conn) : Stub := .bound conn

/-- The aggregate client handle, one stub field per remote service. -/
structure Client where
  systemService : Stub
  adminService : Stub
  managementService : Stub
  userService : Stub
  userServiceV2 : Stub
  authService : Stub
  settingsService : Stub
  settingsServiceV2 : Stub
  sessionService : Stub
  sessionServiceV2 : Stub
  organizationService : Stub
  organizationServiceV2 : Stub
  oidcService : Stub
  oidcServiceV2 : Stub
  deriving DecidableEq

/-- An observable call to one of the external collaborators during
construction. -/
inductive Event where
  | initTokenSource (ctx : Ctx) (issuer : String)
  | transportCredentials (domain : String) (tls : Bool)
  | dial (ctx : Ctx) (host : String) (opts : List DialOption)
  deriving DecidableEq

/-- The external collaborators `New` delegates to: the transport-security
constructor and the grpc dial routine. -/
structure Env where
  transportCredentials : String → Bool → Except Err TransportCreds
  dialContext : Ctx → String → List DialOption → Except Err Conn

/-- `newConnection`: construct transport credentials from the endpoint's
domain and TLS flag, build the dial-option list (the two mandatory options
first, then the caller's), and dial the endpoint's host.  Returns the
result together with the trace of collaborator calls. -/
def newConnection (env : Env) (ctx : Ctx) (z : Zitadel)
    (tokenSource : Option TokenSource) (opts : List DialOption) :
    Except Err Conn × List Event :=
  match env.transportCredentials z.Domain z.IsTLS with
  | .error e => (.error e, [.transportCredentials z.Domain z.IsTLS])
  | .ok transportCreds =>
    let dialOptions : List DialOption :=
      [.withTransportCredentials transportCreds,
       .withPerRPCCredentials { tls := z.IsTLS, tokenSource := tokenSource }]
    let dialOptions := dialOptions ++ opts
    (env.dialContext ctx z.Host dialOptions,
     [.transportCredentials z.Domain z.IsTLS, .dial ctx z.Host dialOptions])

/-- The struct literal at the end of `New`: one stub per service, all
constructed from the single connection. -/
def mkClient (conn : Conn) : Client :=
  { systemService := newServiceClient conn
    adminService := newServiceClient conn
    managementService := newServiceClient conn
    userService := newServiceClient conn
    userServiceV2 := newServiceClient conn
    authService := newServiceClient conn
    settingsService := newServiceClient conn
    settingsServiceV2 := newServiceClient conn
    sessionService := newServiceClient conn
    sessionServiceV2 := newServiceClient conn
    organizationService := newServiceClient conn
    organizationServiceV2 := newServiceClient conn
    oidcService := newServiceClient conn
    oidcServiceV2 := newServiceClient conn }

/-- `New`: apply the options, invoke the token-source initializer (if any)
with the context and the endpoint's origin, build the connection, and wrap
it in a client.  Returns the result together with the trace of collaborator
calls. -/
def New (env : Env) (ctx : Ctx) (z : Zitadel) (opts : List ClientOption) :
    Except Err Client × List Event :=
  let options := applyOptions opts
  match options.initTokenSource with
  | some init =>
    match init ctx z.Origin with
    | .error e => (.error e, [.initTokenSource ctx z.Origin])
    | .ok source =>
      let r := newConnection env ctx z (some source) options.grpcDialOptions
      match r.1 with
      | .error e => (.error e, .initTokenSource ctx z.Origin :: r.2)
      | .ok conn => (.ok (mkClient conn), .initTokenSource ctx z.Origin :: r.2)
  | none =>
    let r := newConnection env ctx z none options.grpcDialOptions
    match r.1 with
    | .error e => (.error e, r.2)
    | .ok conn => (.ok (mkClient conn), r.2)

def Client.SystemService (c : Client) : Stub := c.systemService

def Client.AdminService (c : Client) : Stub := c.adminService

def Client.ManagementService (c : Client) : Stub := c.managementService

def Client.AuthService (c : Client) : Stub := c.authService

def Client.UserService (c : Client) : Stub := c.userService

def Client.UserServiceV2 (c : Client) : Stub := c.userServiceV2

def Client.SettingsService (c : Client) : Stub := c.settingsService

def Client.SettingsServiceV2 (c : Client) : Stub := c.settingsServiceV2

def Client.SessionService (c : Client) : Stub := c.sessionService

def Client.SessionServiceV2 (c : Client) : Stub := c.sessionServiceV2

def Client.OIDCService (c : Client) : Stub := c.oidcService

def Client.OIDCServiceV2 (c : Client) : Stub := c.oidcServiceV2

def Client.OrganizationService (c : Client) : Stub := c.organizationService

def Client.OrganizationServiceV2 (c : Client) : Stub := c.organizationServiceV2

/-- Recognizer for initializer-invocation events in a construction trace. -/
def isInitEvent : Event → Bool
  | .initTokenSource _ _ => true
  | _ => false

/-- Recognizer for dial events in a construction trace. -/
def isDialEvent : Event → Bool
  | .dial _ _ _ => true
  | _ => false

/-- `src` is the token source `New` resolves for the given options: `none`
when no initializer is configured, and the initializer's successful result
otherwise. -/
def sourceResolvesTo (ctx : Ctx) (z : Zitadel) (opts : List ClientOption)
    (src : Option TokenSource) : Prop :=
  ((applyOptions opts).initTokenSource = none ∧ src = none) ∨
  (∃ init ts, (applyOptions opts).initTokenSource = some init ∧
    init ctx z.Origin = .ok ts ∧ src = some ts)

/-- A concrete environment in which both collaborators succeed. -/
def envOk : Env :=
  { transportCredentials := fun _ _ => .ok ⟨0⟩
    dialContext := fun _ _ _ => .ok 7 }

/-- A concrete endpoint whose origin, host and domain are pairwise
distinct. -/
def zW : Zitadel :=
  { domain := "zitadel.example.com"
    host := "example.com:443"
    origin := "https://example.com"
    tls := true }

/-- A concrete initializer that always yields a token source for the token
"tok123". -/
def initW : TokenSourceInitializer := fun _ _ => .ok ⟨.ok "tok123"⟩

/-- A concrete initializer that always fails. -/
def initFailW : TokenSourceInitializer := fun _ _ => .error "boom"

/-- C4: with no token source configured, `GetRequestMetadata` returns an
empty mapping and no error, regardless of the endpoint's TLS setting. -/
theorem getRequestMetadata_no_auth (tls : Bool) :
    (cred.mk tls none).GetRequestMetadata = .ok [] := rfl

/-- C5: `RequiresTransportSecurity` on the credential provider built for an
endpoint returns true iff the endpoint was configured as TLS-enabled,
independent of whether a token source is present. -/
theorem requiresTransportSecurity_iff_tls (z : Zitadel) (ts : Option TokenSource) :
    (cred.mk z.IsTLS ts).RequiresTransportSecurity = true ↔ z.IsTLS = true :=
  Iff.rfl

/-- C3: with a token source supplied, and the token source succeeding with
token `t`, `GetRequestMetadata` returns exactly one entry, under the
authorization key, whose value is the bearer scheme prefix followed by
`t`, and no error. -/
theorem getRequestMetadata_bearer (c : cred) (ts : TokenSource) (t : String)
    (hts : c.tokenSource = some ts) (htok : ts.token = .ok t) :
    c.GetRequestMetadata = .ok [("authorization", "Bearer " ++ t)] := by
  unfold cred.GetRequestMetadata
  rw [hts]
  simp [htok]

/-- Witness for C3 at a concrete credential provider. -/
theorem getRequestMetadata_bearer_witness :
    (cred.mk true (some ⟨Except.ok "tok123"⟩)).GetRequestMetadata =
      .ok [("authorization", "Bearer " ++ "tok123")] :=
  getRequestMetadata_bearer (cred.mk true (some ⟨Except.ok "tok123"⟩))
    ⟨Except.ok "tok123"⟩ "tok123" rfl rfl

/-- C9: every per-service accessor is a pure projection: it returns the
stub stored in the handle at construction (hence the same value on every
call, with no failure mode and no mutation of the handle). -/
theorem accessors_return_stored_stubs (c : Client) :
    c.SystemService = c.systemService ∧
    c.AdminService = c.adminService ∧
    c.ManagementService = c.managementService ∧
    c.AuthService = c.authService ∧
    c.UserService = c.userService ∧
    c.UserServiceV2 = c.userServiceV2 ∧
    c.SettingsService = c.settingsService ∧
    c.SettingsServiceV2 = c.settingsServiceV2 ∧
    c.SessionService = c.sessionService ∧
    c.SessionServiceV2 = c.sessionServiceV2 ∧
    c.OIDCService = c.oidcService ∧
    c.OIDCServiceV2 = c.oidcServiceV2 ∧
    c.OrganizationService = c.organizationService ∧
    c.OrganizationServiceV2 = c.organizationServiceV2 :=
  ⟨rfl, rfl, rfl, rfl, rfl, rfl, rfl, rfl, rfl, rfl, rfl, rfl, rfl, rfl⟩

/-- C10: each option-applying function touches only its own field:
`WithAuth` leaves the accumulated dial options unchanged,
`WithGRPCDialOptions` leaves the initializer unchanged, and
`WithGRPCDialOptions` with zero arguments leaves the configuration
unchanged. -/
theorem option_functions_frame (c : clientOptions) (i : TokenSourceInitializer)
    (opts : List DialOption) :
    (WithAuth i c).grpcDialOptions = c.grpcDialOptions ∧
    (WithGRPCDialOptions opts c).initTokenSource = c.initTokenSource ∧
    WithGRPCDialOptions [] c = c := by
  refine ⟨rfl, rfl, ?_⟩
  simp [WithGRPCDialOptions]

/-- C1: applying `WithGRPCDialOptions` with `[A]` and then `[B]`, together
with `WithAuth` twice, the accumulated configuration keeps only the second
initializer, and (when the second initializer and the transport-security
constructor succeed) `New` dials with exactly the option sequence
[mandatory transport security, mandatory per-call credentials, A, B]. -/
theorem build_transport_options_cumulative_auth_overwrite
    (env : Env) (ctx : Ctx) (z : Zitadel) (i1 i2 : TokenSourceInitializer)
    (A B : DialOption) (ts : TokenSource) (tc : TransportCreds)
    (hinit : i2 ctx z.Origin = .ok ts)
    (htc : env.transportCredentials z.Domain z.IsTLS = .ok tc) :
    (applyOptions [WithAuth i1, WithAuth i2,
        WithGRPCDialOptions [A], WithGRPCDialOptions [B]]).initTokenSource = some i2 ∧
    (New env ctx z [WithAuth i1, WithAuth i2,
        WithGRPCDialOptions [A], WithGRPCDialOptions [B]]).2 =
      [.initTokenSource ctx z.Origin,
       .transportCredentials z.Domain z.IsTLS,
       .dial ctx z.Host
         [.withTransportCredentials tc,
          .withPerRPCCredentials { tls := z.IsTLS, tokenSource := some ts },
          A, B]] := by
  constructor
  · rfl
  · unfold New newConnection
    simp [applyOptions, WithAuth, WithGRPCDialOptions, hinit, htc]
    cases hd : env.dialContext ctx z.Host
        [.withTransportCredentials tc,
         .withPerRPCCredentials { tls := z.IsTLS, tokenSource := some ts },
         A, B] <;> simp [hd]

/-- Witness for C1 at a concrete environment, endpoint and initializers. -/
theorem build_transport_options_cumulative_auth_overwrite_witness :
    (applyOptions [WithAuth initFailW, WithAuth initW,
        WithGRPCDialOptions [.extra 1], WithGRPCDialOptions [.extra 2]]).initTokenSource
        = some initW ∧
    (New envOk 0 zW [WithAuth initFailW, WithAuth initW,
        WithGRPCDialOptions [.extra 1], WithGRPCDialOptions [.extra 2]]).2 =
      [.initTokenSource 0 zW.Origin,
       .transportCredentials zW.Domain zW.IsTLS,
       .dial 0 zW.Host
         [.withTransportCredentials ⟨0⟩,
          .withPerRPCCredentials { tls := zW.IsTLS, tokenSource := some ⟨.ok "tok123"⟩ },
          .extra 1, .extra 2]] :=
  build_transport_options_cumulative_auth_overwrite envOk 0 zW initFailW initW
    (.extra 1) (.extra 2) ⟨.ok "tok123"⟩ ⟨0⟩ rfl rfl

/-- C2: when the configured token-source initializer fails, `New` returns
no handle together with that exact error, and the trace holds only the
initializer invocation: the transport-security constructor and the dial
routine are never invoked. -/
theorem new_fails_fast_on_initializer_error
    (env : Env) (ctx : Ctx) (z : Zitadel) (opts : List ClientOption)
    (init : TokenSourceInitializer) (e : Err)
    (hinit : (applyOptions opts).initTokenSource = some init)
    (herr : init ctx z.Origin = .error e) :
    New env ctx z opts = (.error e, [.initTokenSource ctx z.Origin]) := by
  unfold New
  simp [hinit, herr]

/-- Witness for C2 at a concrete environment and failing initializer. -/
theorem new_fails_fast_on_initializer_error_witness :
    New envOk 0 zW [WithAuth initFailW] =
      (.error "boom", [.initTokenSource 0 zW.Origin]) :=
  new_fails_fast_on_initializer_error envOk 0 zW [WithAuth initFailW]
    initFailW "boom" rfl rfl

theorem newConnection_trace_no_init (env : Env) (ctx : Ctx) (z : Zitadel)
    (src : Option TokenSource) (opts : List DialOption) (c : Ctx) (i : String) :
    Event.initTokenSource c i ∉ (newConnection env ctx z src opts).2 := by
  unfold newConnection
  cases h : env.transportCredentials z.Domain z.IsTLS <;> simp

theorem newConnection_trace_countP_init (env : Env) (ctx : Ctx) (z : Zitadel)
    (src : Option TokenSource) (opts : List DialOption) :
    (newConnection env ctx z src opts).2.countP isInitEvent = 0 := by
  unfold newConnection
  cases h : env.transportCredentials z.Domain z.IsTLS <;>
    simp [isInitEvent, List.countP_cons]

theorem new_trace_with_init (env : Env) (ctx : Ctx) (z : Zitadel)
    (opts : List ClientOption) (init : TokenSourceInitializer) (ts : TokenSource)
    (hinit : (applyOptions opts).initTokenSource = some init)
    (hok : init ctx z.Origin = .ok ts) :
    (New env ctx z opts).2 =
      Event.initTokenSource ctx z.Origin ::
        (newConnection env ctx z (some ts) (applyOptions opts).grpcDialOptions).2 := by
  unfold New
  simp only [hinit, hok]
  cases h2 : (newConnection env ctx z (some ts) (applyOptions opts).grpcDialOptions).1 <;>
    simp [h2]

theorem new_trace_no_init (env : Env) (ctx : Ctx) (z : Zitadel)
    (opts : List ClientOption)
    (hnone : (applyOptions opts).initTokenSource = none) :
    (New env ctx z opts).2 =
      (newConnection env ctx z none (applyOptions opts).grpcDialOptions).2 := by
  unfold New
  simp only [hnone]
  cases h2 : (newConnection env ctx z none (applyOptions opts).grpcDialOptions).1 <;>
    simp [h2]

/-- C8: when a token-source initializer is configured, `New` invokes it
exactly once, and the invocation passes the build context and the
endpoint's externally visible origin (so never the host or the domain). -/
theorem initializer_invoked_once_with_origin
    (env : Env) (ctx : Ctx) (z : Zitadel) (opts : List ClientOption)
    (init : TokenSourceInitializer)
    (hinit : (applyOptions opts).initTokenSource = some init) :
    (New env ctx z opts).2.countP isInitEvent = 1 ∧
    Event.initTokenSource ctx z.Origin ∈ (New env ctx z opts).2 ∧
    ∀ c i, Event.initTokenSource c i ∈ (New env ctx z opts).2 →
      c = ctx ∧ i = z.Origin := by
  cases h1 : init ctx z.Origin with
  | error e =>
    have htr : (New env ctx z opts).2 = [.initTokenSource ctx z.Origin] := by
      unfold New
      simp [hinit, h1]
    rw [htr]
    refine ⟨by simp [isInitEvent, List.countP_cons], by simp, ?_⟩
    intro c i hm
    rcases List.mem_singleton.mp hm with h
    injection h with hc hi
    exact ⟨hc, hi⟩
  | ok ts =>
    have htr := new_trace_with_init env ctx z opts init ts hinit h1
    rw [htr]
    refine ⟨?_, by simp, ?_⟩
    · simp [List.countP_cons, isInitEvent, newConnection_trace_countP_init]
    · intro c i hm
      rcases List.mem_cons.mp hm with h | h
      · injection h with hc hi
        exact ⟨hc, hi⟩
      · exact absurd h (newConnection_trace_no_init env ctx z (some ts) _ c i)

/-- Witness for C8 at a concrete environment and initializer. -/
theorem initializer_invoked_once_with_origin_witness :
    (New envOk 0 zW [WithAuth initW]).2.countP isInitEvent = 1 ∧
    Event.initTokenSource 0 zW.Origin ∈ (New envOk 0 zW [WithAuth initW]).2 ∧
    ∀ c i, Event.initTokenSource c i ∈ (New envOk 0 zW [WithAuth initW]).2 →
      c = 0 ∧ i = zW.Origin :=
  initializer_invoked_once_with_origin envOk 0 zW [WithAuth initW] initW rfl

theorem newConnection_ok (env : Env) (ctx : Ctx) (z : Zitadel)
    (src : Option TokenSource) (opts : List DialOption) (conn : Conn)
    (h : (newConnection env ctx z src opts).1 = .ok conn) :
    ∃ tc, env.transportCredentials z.Domain z.IsTLS = .ok tc ∧
      (newConnection env ctx z src opts).2 =
        [.transportCredentials z.Domain z.IsTLS,
         .dial ctx z.Host
           ([.withTransportCredentials tc,
             .withPerRPCCredentials { tls := z.IsTLS, tokenSource := src }] ++ opts)] := by
  cases h2 : env.transportCredentials z.Domain z.IsTLS with
  | error e =>
    unfold newConnection at h
    simp [h2] at h
  | ok tc =>
    refine ⟨tc, rfl, ?_⟩
    unfold newConnection
    simp [h2]

/-- C6: when `New` succeeds, every per-service accessor of the returned
handle yields a non-null stub, all fourteen stubs are bound to the same
single connection, and the single dial that produced that connection
attached one per-call credential provider shared by all of them. -/
theorem build_success_stubs_share_connection
    (env : Env) (ctx : Ctx) (z : Zitadel) (opts : List ClientOption)
    (client : Client)
    (h : (New env ctx z opts).1 = .ok client) :
    ∃ conn : Conn,
      Stub.bound conn ≠ Stub.null ∧
      client.SystemService = .bound conn ∧
      client.AdminService = .bound conn ∧
      client.ManagementService = .bound conn ∧
      client.AuthService = .bound conn ∧
      client.UserService = .bound conn ∧
      client.UserServiceV2 = .bound conn ∧
      client.SettingsService = .bound conn ∧
      client.SettingsServiceV2 = .bound conn ∧
      client.SessionService = .bound conn ∧
      client.SessionServiceV2 = .bound conn ∧
      client.OIDCService = .bound conn ∧
      client.OIDCServiceV2 = .bound conn ∧
      client.OrganizationService = .bound conn ∧
      client.OrganizationServiceV2 = .bound conn ∧
      (New env ctx z opts).2.countP isDialEvent = 1 ∧
      ∃ src tc,
        Event.dial ctx z.Host
          ([.withTransportCredentials tc,
            .withPerRPCCredentials { tls := z.IsTLS, tokenSource := src }] ++
            (applyOptions opts).grpcDialOptions) ∈ (New env ctx z opts).2 := by
  cases hi : (applyOptions opts).initTokenSource with
  | none =>
    cases hd : (newConnection env ctx z none (applyOptions opts).grpcDialOptions).1 with
    | error e =>
      unfold New at h
      simp [hi, hd] at h
    | ok conn =>
      have hcl : client = mkClient conn := by
        unfold New at h
        simp [hi, hd] at h
        exact h.symm
      obtain ⟨tc, htc, htr⟩ := newConnection_ok env ctx z none _ conn hd
      have htrace := new_trace_no_init env ctx z opts hi
      subst hcl
      refine ⟨conn, by simp, rfl, rfl, rfl, rfl, rfl, rfl, rfl, rfl, rfl, rfl,
        rfl, rfl, rfl, rfl, ?_, none, tc, ?_⟩
      · rw [htrace, htr]
        simp [isDialEvent, List.countP_cons]
      · rw [htrace, htr]
        simp
  | some init =>
    cases h1 : init ctx z.Origin with
    | error e =>
      unfold New at h
      simp [hi, h1] at h
    | ok ts =>
      cases hd : (newConnection env ctx z (some ts) (applyOptions opts).grpcDialOptions).1 with
      | error e =>
        unfold New at h
        simp [hi, h1, hd] at h
      | ok conn =>
        have hcl : client = mkClient conn := by
          unfold New at h
          simp [hi, h1, hd] at h
          exact h.symm
        obtain ⟨tc, htc, htr⟩ := newConnection_ok env ctx z (some ts) _ conn hd
        have htrace := new_trace_with_init env ctx z opts init ts hi h1
        subst hcl
        refine ⟨conn, by simp, rfl, rfl, rfl, rfl, rfl, rfl, rfl, rfl, rfl, rfl,
          rfl, rfl, rfl, rfl, ?_, some ts, tc, ?_⟩
        · rw [htrace, htr]
          simp [isDialEvent, isInitEvent, List.countP_cons]
        · rw [htrace, htr]
          simp

/-- Witness for C6 at a concrete succeeding environment. -/
theorem build_success_stubs_share_connection_witness :
    ∃ conn : Conn,
      Stub.bound conn ≠ Stub.null ∧
      (mkClient 7).SystemService = .bound conn ∧
      (mkClient 7).AdminService = .bound conn ∧
      (mkClient 7).ManagementService = .bound conn ∧
      (mkClient 7).AuthService = .bound conn ∧
      (mkClient 7).UserService = .bound conn ∧
      (mkClient 7).UserServiceV2 = .bound conn ∧
      (mkClient 7).SettingsService = .bound conn ∧
      (mkClient 7).SettingsServiceV2 = .bound conn ∧
      (mkClient 7).SessionService = .bound conn ∧
      (mkClient 7).SessionServiceV2 = .bound conn ∧
      (mkClient 7).OIDCService = .bound conn ∧
      (mkClient 7).OIDCServiceV2 = .bound conn ∧
      (mkClient 7).OrganizationService = .bound conn ∧
      (mkClient 7).OrganizationServiceV2 = .bound conn ∧
      (New envOk 0 zW []).2.countP isDialEvent = 1 ∧
      ∃ src tc,
        Event.dial 0 zW.Host
          ([.withTransportCredentials tc,
            .withPerRPCCredentials { tls := zW.IsTLS, tokenSource := src }] ++
            (applyOptions []).grpcDialOptions) ∈ (New envOk 0 zW []).2 :=
  build_success_stubs_share_connection envOk 0 zW [] (mkClient 7) rfl

/-- C7: a failure at any construction step — the token-source initializer,
the transport-security constructor, or the connection dial — makes `New`
return the underlying error exactly as produced together with no handle:
never a partial handle. -/
theorem build_failures_verbatim_no_partial_handle
    (env : Env) (ctx : Ctx) (z : Zitadel) (opts : List ClientOption) (e : Err)
    (h : (∃ init, (applyOptions opts).initTokenSource = some init ∧
            init ctx z.Origin = .error e)
       ∨ (∃ src, sourceResolvesTo ctx z opts src ∧
            env.transportCredentials z.Domain z.IsTLS = .error e)
       ∨ (∃ src tc, sourceResolvesTo ctx z opts src ∧
            env.transportCredentials z.Domain z.IsTLS = .ok tc ∧
            env.dialContext ctx z.Host
              ([.withTransportCredentials tc,
                .withPerRPCCredentials { tls := z.IsTLS, tokenSource := src }] ++
                (applyOptions opts).grpcDialOptions) = .error e)) :
    (New env ctx z opts).1 = .error e ∧
    ∀ c : Client, (New env ctx z opts).1 ≠ .ok c := by
  have main : (New env ctx z opts).1 = .error e := by
    rcases h with ⟨init, hi, he⟩ | ⟨src, hs, htc⟩ | ⟨src, tc, hs, htc, hd⟩
    · unfold New
      simp [hi, he]
    · rcases hs with ⟨hnone, hsrc⟩ | ⟨init, ts, hi, hok, hsrc⟩
      · unfold New newConnection
        simp [hnone, htc]
      · unfold New newConnection
        simp [hi, hok, htc]
    · rcases hs with ⟨hnone, hsrc⟩ | ⟨init, ts, hi, hok, hsrc⟩
      · subst hsrc
        simp only [List.cons_append, List.nil_append] at hd
        unfold New newConnection
        simp [hnone, htc, hd]
      · subst hsrc
        simp only [List.cons_append, List.nil_append] at hd
        unfold New newConnection
        simp [hi, hok, htc, hd]
  refine ⟨main, fun c hc => ?_⟩
  rw [main] at hc
  exact Except.noConfusion hc

/-- Witness for C7 at a concrete failing initializer. -/
theorem build_failures_verbatim_no_partial_handle_witness :
    (New envOk 0 zW [WithAuth initFailW]).1 = .error "boom" ∧
    ∀ c : Client, (New envOk 0 zW [WithAuth initFailW]).1 ≠ .ok c :=
  build_failures_verbatim_no_partial_handle envOk 0 zW [WithAuth initFailW] "boom"
    (Or.inl ⟨initFailW, rfl, rfl⟩)

end ZitadelClient
